import Mathlib

/-!
Verification of the easyt-chat-server corpus: a shallow embedding of the
HTTP chat-endpoint variants (Express handlers calling an LLM API and a
vector-search database) together with proofs about the claims made in the
specification.  Strings are modelled as `String`/`List Char`; each upstream
service (LLM completion, embedding creation, database query/RPC) is an
oracle supplied through an environment structure, and handlers additionally
return the list of upstream calls they issued.
-/

namespace EasytChat

/-! ## JavaScript string primitives -/

/-- The character class matched by `\s` in a JavaScript regular expression and
stripped by `String.prototype.trim`. -/
def isJsWhitespace (c : Char) : Bool :=
  let n := c.toNat
  decide (9 ≤ n ∧ n ≤ 13) || decide (n = 32) || decide (n = 0xa0) ||
    decide (n = 0x1680) || decide (0x2000 ≤ n ∧ n ≤ 0x200a) ||
    decide (n = 0x2028) || decide (n = 0x2029) || decide (n = 0x202f) ||
    decide (n = 0x205f) || decide (n = 0x3000) || decide (n = 0xfeff)

/-- `String.prototype.trim` on the underlying character list: drop leading and
trailing JS whitespace. -/
def trimChars (l : List Char) : List Char :=
  List.rdropWhile isJsWhitespace (List.dropWhile isJsWhitespace l)

/-- `String.prototype.trim`. -/
def jsTrim (s : String) : String := ⟨trimChars s.data⟩

/-- A JavaScript string option with `""` collapsed to `none`: `undefined`,
`null` and the empty string are the falsy string values, so `if (!x)` on an
optional string field tests exactly `optTruthy x = none`. -/
def optTruthy : Option String → Option String
  | none => none
  | some s => if s = "" then none else some s

/-- `a || b` on optional strings (first truthy value, else `none`). -/
def jsOrStr (a b : Option String) : Option String :=
  match optTruthy a with
  | some s => some s
  | none => optTruthy b

/-- Substring test on character lists (`String.prototype.includes`). -/
def listIncludes (pat : List Char) : List Char → Bool
  | [] => pat.isEmpty
  | c :: rest => pat.isPrefixOf (c :: rest) || listIncludes pat rest

/-- `s.includes(needle)`. -/
def strIncludes (s needle : String) : Bool := listIncludes needle.data s.data

/-- Count of (non-overlapping, leftmost) occurrences of a pattern in a
character list; used to count HTML fragments such as `<style>` in a reply.
Fuel-based so the kernel can evaluate it; `length + 1` fuel suffices. -/
def countOccurFuel (pat : List Char) : ℕ → List Char → ℕ
  | 0, _ => 0
  | _ + 1, [] => 0
  | fuel + 1, c :: rest =>
      if pat ≠ [] ∧ pat.isPrefixOf (c :: rest) then
        1 + countOccurFuel pat fuel (List.drop (pat.length - 1) rest)
      else countOccurFuel pat fuel rest

def countOccur (pat l : List Char) : ℕ := countOccurFuel pat (l.length + 1) l

/-- `s.split(sep)` for a one-character separator (as used with `" "` and
`"\n"` in the sources); JavaScript keeps empty fragments. -/
def splitOnChar (sep : Char) (l : List Char) : List String :=
  match l with
  | [] => [""]
  | c :: rest =>
      let tail := splitOnChar sep rest
      if c = sep then "" :: tail
      else
        match tail with
        | [] => [String.mk [c]]
        | t :: ts => String.mk (c :: t.data) :: ts

/-- `parts.join(sep)` for a one-character separator. -/
def joinWithChar (sep : Char) : List String → String
  | [] => ""
  | [s] => s
  | s :: rest => s ++ String.mk [sep] ++ joinWithChar sep rest

/-! ## `normalizeArabic` (src/server.js lines 32-42, variant 3 lines 456-465,
src/unnamed/part_013 lines 53-62, src/unnamed/part_000 lines 19-28)

The function chains five character substitutions, a character-class filter,
`toLowerCase()` and (in the first variant only) `trim()`:
```js
text.replace(/[إأآا]/g, "ا").replace(/ة/g, "ه").replace(/ى/g, "ي")
    .replace(/ؤ/g, "و").replace(/ئ/g, "ي")
    .replace(/[^ء-يa-zA-Z0-9\s]/g, "").toLowerCase().trim()
```
`toLowerCase()` acts on the already-filtered string, whose only cased
characters are ASCII letters, so `Char.toLower` (ASCII case mapping) is an
exact model of this step. -/

/-- `replace(/[إأآا]/g, "ا")` on one character. -/
def subAlef (c : Char) : Char :=
  if c = 'إ' ∨ c = 'أ' ∨ c = 'آ' ∨ c = 'ا' then 'ا' else c

/-- `replace(/ة/g, "ه")` on one character. -/
def subTaMarbuta (c : Char) : Char := if c = 'ة' then 'ه' else c

/-- `replace(/ى/g, "ي")` on one character. -/
def subAlefMaqsura (c : Char) : Char := if c = 'ى' then 'ي' else c

/-- `replace(/ؤ/g, "و")` on one character. -/
def subWawHamza (c : Char) : Char := if c = 'ؤ' then 'و' else c

/-- `replace(/ئ/g, "ي")` on one character. -/
def subYaHamza (c : Char) : Char := if c = 'ئ' then 'ي' else c

/-- The character class kept by `replace(/[^ء-يa-zA-Z0-9\s]/g, "")`. -/
def keepNormChar (c : Char) : Bool :=
  let n := c.toNat
  decide ('ء'.toNat ≤ n ∧ n ≤ 'ي'.toNat) || decide ('a'.toNat ≤ n ∧ n ≤ 'z'.toNat) ||
    decide ('A'.toNat ≤ n ∧ n ≤ 'Z'.toNat) || decide ('0'.toNat ≤ n ∧ n ≤ '9'.toNat) ||
    isJsWhitespace c

/-- The substitution/filter/lowercase pipeline shared by all
`normalizeArabic` variants (everything except the final `trim()`). -/
def normCore (l : List Char) : List Char :=
  ((((((l.map subAlef).map subTaMarbuta).map subAlefMaqsura).map
      subWawHamza).map subYaHamza).filter keepNormChar).map Char.toLower

/-- `normalizeArabic` as in src/server.js lines 32-42 (ends with `.trim()`). -/
def normalizeArabic (s : String) : String := ⟨trimChars (normCore s.data)⟩

/-- `normalizeArabic` as in src/unnamed/part_013 lines 53-62, src/server.js
variant 3 lines 456-465 and src/unnamed/part_000 lines 19-28 (no `trim()`). -/
def normalizeArabicNT (s : String) : String := ⟨normCore s.data⟩

/-- A character that every stage of `normalizeArabic` leaves alone: kept by
the filter, not one of the substituted Arabic letters, not an uppercase ASCII
letter. -/
def goodNormChar (c : Char) : Prop :=
  keepNormChar c = true ∧ c ≠ 'إ' ∧ c ≠ 'أ' ∧ c ≠ 'آ' ∧ c ≠ 'ة' ∧ c ≠ 'ى' ∧
    c ≠ 'ؤ' ∧ c ≠ 'ئ' ∧ ¬(65 ≤ c.toNat ∧ c.toNat ≤ 90)

/-! ## Regex-based HTML post-processing

Each `String.prototype.replace(regex, ...)` call of the sources is embedded
as a left-to-right scanner over the character list producing the same string:
leftmost non-overlapping matches, replacement text not rescanned, scan
resuming after each match, exactly as the JS global-regex semantics.  The
scanners take a fuel argument; every recursive call consumes at least one
input character, so `length + 1` fuel always suffices. -/

/-- `replace` with a global regex that is a plain string literal (used for
`new RegExp(word, "gi")` on Arabic words — caseless — and `/\n/g`). -/
def replaceSubFuel (pat rep : List Char) : ℕ → List Char → List Char
  | 0, l => l
  | _ + 1, [] => []
  | fuel + 1, c :: rest =>
      if pat ≠ [] ∧ pat.isPrefixOf (c :: rest) then
        rep ++ replaceSubFuel pat rep fuel (List.drop (pat.length - 1) rest)
      else c :: replaceSubFuel pat rep fuel rest

/-- `s.replace(new RegExp(pat, "g"), rep)` for a literal pattern. -/
def replaceSub (s pat rep : String) : String :=
  ⟨replaceSubFuel pat.data rep.data (s.data.length + 1) s.data⟩

/-- `removeExternalContent` (src/server.js variant 2 lines 296-308): delete a
fixed list of forbidden Arabic words, one global replace per word. -/
def forbiddenWords : List String :=
  ["الإنترنت", "يوتيوب", "فيسبوك", "جروبات", "مجتمعات", "منصات", "مواقع", "مصادر خارجية"]

def removeExternalContent (text : String) : String :=
  forbiddenWords.foldl (fun t w => replaceSub t w "") text

/-- Scan for the first `>` that closes `<h𝑛`'s `.*?>`; `.` in a JS regex
without the `s` flag excludes line terminators, so a line break before the
`>` kills the match. -/
def findTagClose : List Char → Option (List Char)
  | [] => none
  | c :: rest =>
      if c = '>' then some rest
      else if c = '\n' ∨ c = '\r' ∨ c.toNat = 0x2028 ∨ c.toNat = 0x2029 then none
      else findTagClose rest

/-- `replace(/<h[1-6].*?>/gi, "<strong>")`. -/
def hOpenFuel : ℕ → List Char → List Char
  | 0, l => l
  | _ + 1, [] => []
  | fuel + 1, c :: rest =>
      match c, rest with
      | '<', h :: d :: rest2 =>
          if (h = 'h' ∨ h = 'H') ∧ '1' ≤ d ∧ d ≤ '6' then
            match findTagClose rest2 with
            | some rest3 => "<strong>".data ++ hOpenFuel fuel rest3
            | none => '<' :: hOpenFuel fuel rest
          else '<' :: hOpenFuel fuel rest
      | _, _ => c :: hOpenFuel fuel rest

/-- `replace(/<\/h[1-6]>/gi, "</strong>")`. -/
def hCloseFuel : ℕ → List Char → List Char
  | 0, l => l
  | _ + 1, [] => []
  | fuel + 1, c :: rest =>
      match c, rest with
      | '<', '/' :: h :: d :: '>' :: rest2 =>
          if (h = 'h' ∨ h = 'H') ∧ '1' ≤ d ∧ d ≤ '6' then
            "</strong>".data ++ hCloseFuel fuel rest2
          else '<' :: hCloseFuel fuel rest
      | _, _ => c :: hCloseFuel fuel rest

/-- `replace(/\n+/g, "<br>")`. -/
def nlRunsToBrFuel : ℕ → List Char → List Char
  | 0, l => l
  | _ + 1, [] => []
  | fuel + 1, c :: rest =>
      if c = '\n' then "<br>".data ++ nlRunsToBrFuel fuel (rest.dropWhile (· == '\n'))
      else c :: nlRunsToBrFuel fuel rest

/-- `replace(/<\/li>\s*<br>/g, "</li>")`. -/
def liBrFuel : ℕ → List Char → List Char
  | 0, l => l
  | _ + 1, [] => []
  | fuel + 1, c :: rest =>
      if "</li>".data.isPrefixOf (c :: rest) then
        let afterWs := ((c :: rest).drop 5).dropWhile isJsWhitespace
        if "<br>".data.isPrefixOf afterWs then
          "</li>".data ++ liBrFuel fuel (afterWs.drop 4)
        else c :: liBrFuel fuel rest
      else c :: liBrFuel fuel rest

/-- `replace(/<\/li>\s*<li>/g, "</li><li>")`. -/
def liLiFuel : ℕ → List Char → List Char
  | 0, l => l
  | _ + 1, [] => []
  | fuel + 1, c :: rest =>
      if "</li>".data.isPrefixOf (c :: rest) then
        let afterWs := ((c :: rest).drop 5).dropWhile isJsWhitespace
        if "<li>".data.isPrefixOf afterWs then
          "</li><li>".data ++ liLiFuel fuel (afterWs.drop 4)
        else c :: liLiFuel fuel rest
      else c :: liLiFuel fuel rest

/-- `replace(/https?:\/\/\S+/g, "")` (src/server.js variant 1 line 197):
scheme literal then at least one non-whitespace character, all removed. -/
def urlStripFuel : ℕ → List Char → List Char
  | 0, l => l
  | _ + 1, [] => []
  | fuel + 1, c :: rest =>
      let scheme : Option ℕ :=
        if "https://".data.isPrefixOf (c :: rest) then some 8
        else if "http://".data.isPrefixOf (c :: rest) then some 7
        else none
      match scheme with
      | some n =>
          let after := (c :: rest).drop n
          let t := after.takeWhile (fun ch => ! isJsWhitespace ch)
          if t ≠ [] then urlStripFuel fuel (after.drop t.length)
          else c :: urlStripFuel fuel rest
      | none => c :: urlStripFuel fuel rest

def stripUrls (s : String) : String := ⟨urlStripFuel (s.data.length + 1) s.data⟩

/-- A `<br\s*\/?>` tag at the head of the list (case-insensitive), returning
the remainder after it. -/
def brTagEnd : List Char → Option (List Char)
  | '<' :: b :: r :: rest =>
      if (b = 'b' ∨ b = 'B') ∧ (r = 'r' ∨ r = 'R') then
        match rest.dropWhile isJsWhitespace with
        | '/' :: '>' :: rest2 => some rest2
        | '>' :: rest2 => some rest2
        | _ => none
      else none
  | _ => none

/-- `replace(/^(\s|<br\s*\/?>)+/gi, "")` (src/unnamed/part_016 line 243): the
anchored pattern strips one maximal leading run of whitespace and `<br>`
tags. -/
def leadStripFuel : ℕ → List Char → List Char
  | 0, l => l
  | _ + 1, [] => []
  | fuel + 1, c :: rest =>
      if isJsWhitespace c then leadStripFuel fuel rest
      else
        match brTagEnd (c :: rest) with
        | some rest2 => leadStripFuel fuel rest2
        | none => c :: rest

/-- `replace(/\n\s*\n+/g, "\n")` (src/unnamed/part_016 line 244): a greedy
match runs from a newline to the last newline of the maximal whitespace run
it starts, provided that run holds at least two newlines. -/
def nlWsCollapseFuel : ℕ → List Char → List Char
  | 0, l => l
  | _ + 1, [] => []
  | fuel + 1, c :: rest =>
      if c = '\n' then
        let run := (c :: rest).takeWhile isJsWhitespace
        if 2 ≤ run.count '\n' then
          let upto := (run.reverse.dropWhile (· != '\n')).reverse
          '\n' :: nlWsCollapseFuel fuel ((c :: rest).drop upto.length)
        else c :: nlWsCollapseFuel fuel rest
      else c :: nlWsCollapseFuel fuel rest

/-- Greedily consume repetitions of `<br>\s*`, returning how many and the
remainder. -/
def brRepsFuel : ℕ → List Char → ℕ × List Char
  | 0, l => (0, l)
  | fuel + 1, l =>
      if "<br>".data.isPrefixOf l then
        let step := brRepsFuel fuel ((l.drop 4).dropWhile isJsWhitespace)
        (step.1 + 1, step.2)
      else (0, l)

/-- `replace(/(<br>\s*){2,}/g, "<br>")` (src/unnamed/part_016 line 248). -/
def brRunCollapseFuel : ℕ → List Char → List Char
  | 0, l => l
  | _ + 1, [] => []
  | fuel + 1, c :: rest =>
      let reps := brRepsFuel (fuel + 1) (c :: rest)
      if 2 ≤ reps.1 then "<br>".data ++ brRunCollapseFuel fuel reps.2
      else c :: brRunCollapseFuel fuel rest

/-- `cleanHTML` (src/server.js variant 2 lines 287-294): heading tags to
bold, newline runs to `<br>`, `</li>` spacing fixes, then `trim()`. -/
def cleanHTML (reply : String) : String :=
  let r1 := hOpenFuel (reply.data.length + 1) reply.data
  let r2 := hCloseFuel (r1.length + 1) r1
  let r3 := nlRunsToBrFuel (r2.length + 1) r2
  let r4 := liBrFuel (r3.length + 1) r3
  let r5 := liLiFuel (r4.length + 1) r4
  ⟨trimChars r5⟩

/-- `cleanHTML` (src/unnamed/part_016 lines 241-250): leading-break strip,
blank-line collapse, heading tags to bold, every newline to `<br>`, `<br>`
run collapse, then `trim()`; `if (!reply) return ""` for the falsy input. -/
def cleanHTML016 (reply : String) : String :=
  if reply = "" then ""
  else
    let r1 := leadStripFuel (reply.data.length + 1) reply.data
    let r2 := nlWsCollapseFuel (r1.length + 1) r1
    let r3 := hOpenFuel (r2.length + 1) r2
    let r4 := hCloseFuel (r3.length + 1) r3
    let r5 := replaceSubFuel "\n".data "<br>".data (r4.length + 1) r4
    let r6 := brRunCollapseFuel (r5.length + 1) r5
    ⟨trimChars r6⟩

/-! ## The variant-2 formatting stage (src/server.js lines 358-412)

After the LLM reply is cleaned, course buttons are appended when retrieval
returned course rows, and the result is wrapped in a fixed `<style>` block
plus a `chat-wrapper` `<div>`. -/

/-- A course row as used by the variant-2 button code (`course.url`,
`course.title`). -/
structure CourseV2 where
  url : String
  title : String
  deriving DecidableEq

/-- `detectTopic` (src/server.js variant 2 lines 310-316). -/
def detectTopic (message : String) : String :=
  if strIncludes message "برمجة" then "أساسيات البرمجة"
  else if strIncludes message "ويب" then "برمجة الويب"
  else if strIncludes message "تطبيقات" then "برمجة تطبيقات الهواتف"
  else if strIncludes message "بيانات" then "تحليل البيانات"
  else "أساسيات البرمجة"

/-- One course button of variant 2 (src/server.js lines 370-373). -/
def courseButtonV2 (course : CourseV2) : String :=
  "\n          <a href=\"" ++ course.url ++
    "\" target=\"_blank\" class=\"course-btn\">\n            " ++ course.title ++
    "\n          </a>"

/-- The course-button append of variant 2 (src/server.js lines 364-376). -/
def appendCourseButtonsV2 (courses : List CourseV2) (reply : String) : String :=
  if courses.length > 0 then
    courses.foldl
      (fun r course => if course.url ≠ "" then r ++ courseButtonV2 course else r)
      (reply ++
        "<br><br><strong style=\"color:#c40000;\">ابدأ بأحد الدورات التالية:</strong><br>")
  else reply

/-- The fixed `<style>`-block prefix of the variant-2 wrap (src/server.js
lines 378-409). -/
def styleWrapPrefixV2 : String :=
  "\n<style>\n.chat-wrapper\x7b\nfont-size:14px;\nline-height:1.45;\n\x7d\n\n/* ✅ المستطيلات الحمراء */\n.course-btn\x7b\ndisplay:block;\nwidth:100%;\nmax-width:420px;\npadding:10px 14px;\nbackground:#c40000;\ncolor:#ffffff;\nfont-size:14px;\nline-height:1.3;\nborder-radius:6px;\ntext-decoration:none;\nmargin:0 auto 2px auto;  /* ✅ فاصل رفيع جدًا بين كل مستطيل */\ntext-align:center;\ntransition:0.2s ease;\n\x7d\n\n/* ✅ هوفر وردي فاتح جدًا للنص فقط */\n.course-btn:hover\x7b\ncolor:#ffd6ea;\nbackground:#c40000;\n\x7d\n</style>\n\n<div class=\"chat-wrapper\">\n"

/-- The variant-2 style wrap (src/server.js lines 378-412). -/
def styleWrapV2 (reply : String) : String :=
  styleWrapPrefixV2 ++ reply ++ "\n</div>\n"

/-- The full variant-2 formatting stage applied to an LLM reply given the
retrieval results: `removeExternalContent`, `cleanHTML`, course-button
append, style wrap — in the order of src/server.js lines 358-412. -/
def formatV2 (courses : List CourseV2) (reply : String) : String :=
  styleWrapV2 (appendCourseButtonsV2 courses (cleanHTML (removeExternalContent reply)))

/-! ## Responses and conversation memory -/

/-- The JSON body and status an Express handler sends: `res.status(s).json`
with optional `reply`, `error` and `session_id` fields (`res.json` alone is
status 200). -/
structure Resp where
  status : ℕ
  reply : Option String := none
  error : Option String := none
  session_id : Option String := none
  deriving DecidableEq

/-- One conversation turn `{ role, content }`. -/
structure Turn where
  role : String
  content : String
  deriving DecidableEq

/-- The in-process `conversations = new Map()` keyed by session id: an
association list in insertion order, mirroring JS `Map` semantics. -/
def ConvMap := List (String × List Turn)

/-- `conversations.get(k)` / `conversations.has(k)`. -/
def msGet (m : ConvMap) (k : String) : Option (List Turn) :=
  match m with
  | [] => none
  | (k', v) :: rest => if k' = k then some v else msGet rest k

/-- `conversations.set(k, v)` (also models pushing onto the array returned by
`get`, which mutates the stored array in place): update in place if the key
exists, else append. -/
def msSet (m : ConvMap) (k : String) (v : List Turn) : ConvMap :=
  match m with
  | [] => [(k, v)]
  | (k', v') :: rest => if k' = k then (k, v) :: rest else (k', v') :: msSet rest k v

/-- The history stored for a session (`[]` when the session is absent). -/
def histOf (m : ConvMap) (k : String) : List Turn := (msGet m k).getD []

/-- `if (!conversations.has(session_id)) conversations.set(session_id, [])`. -/
def ensureSession (conv : ConvMap) (sid : String) : ConvMap :=
  if (msGet conv sid).isSome then conv else msSet conv sid []

/-! ## Chat handler, variant 2 (src/server.js lines 320-420)

Conversation memory in the `conversations` map, one completion call on the
whole history, retrieval of related courses by a keyword topic, then the
formatting stage.  Oracles: the completion result (`none` models a thrown
upstream error, caught by the top-level `catch` as HTTP 500) and the
`getRelatedCourses` result per query. -/

structure EnvV2 where
  /-- `openai.chat.completions.create` content; `none` = the call threw. -/
  llm : Option String
  /-- `getRelatedCourses(topic, 3)` result; `none` = the call threw. -/
  relatedOf : String → Option (List CourseV2)

/-- The variant-2 `POST /chat` handler as a state transformer on the
`conversations` map. `freshId` stands for `crypto.randomUUID()`. -/
def chatV2 (conv : ConvMap) (message? sid? : Option String) (freshId : String)
    (env : EnvV2) : ConvMap × Resp :=
  match optTruthy message? with
  | none => (conv, { status := 400, reply := some "لم يتم إرسال رسالة." })
  | some message =>
    let session_id := (optTruthy sid?).getD freshId
    let conv1 := ensureSession conv session_id
    let history := histOf conv1 session_id
    let history1 := history ++ [⟨"user", message⟩]
    let conv2 := msSet conv1 session_id history1
    match env.llm with
    | none => (conv2, { status := 500, reply := some "حدث خطأ مؤقت." })
    | some content =>
      let history2 := history1 ++ [⟨"assistant", content⟩]
      let conv3 := msSet conv2 session_id history2
      match env.relatedOf (detectTopic message) with
      | none => (conv3, { status := 500, reply := some "حدث خطأ مؤقت." })
      | some relatedCourses =>
        let reply := formatV2 relatedCourses content
        (conv3, { status := 200, reply := some reply, session_id := some session_id })

/-! ## src/unnamed/part_016: chat route, intent classifier, course search,
webhook -/

/-- A `match_courses` row as used by part_016 (`link`, `title`,
`similarity`). -/
structure Course16 where
  link : String
  title : String
  similarity : ℚ
  deriving DecidableEq

/-- `searchCourses` (src/unnamed/part_016 lines 217-235): embed, RPC
`match_courses`, keep similarity ≥ 0.60, sort descending; any error or
exception yields `[]`.  `raw = none` models `error || !data` (or a throw
before the filter). -/
def searchCourses16 (raw : Option (List Course16)) : List Course16 :=
  match raw with
  | none => []
  | some data =>
      (data.filter fun c => decide ((0.60 : ℚ) ≤ c.similarity)).mergeSort
        fun a b => decide (b.similarity ≤ a.similarity)

/-- Upstream calls issued by the part_016 chat route. -/
inductive Call16 where
  | intentCompletion
  | chatCompletion
  | searchEmbedding
  | searchRpc
  deriving DecidableEq

structure Env16 where
  /-- `detectIntent`'s completion: `none` = the call threw; otherwise the
  resulting intent label (already `"other"` when `JSON.parse` failed, that
  fallback being internal to `detectIntent`). -/
  intent : Option String
  /-- the main completion content; `none` = the call threw. -/
  llm : Option String
  /-- whether `createEmbedding` inside `searchCourses` succeeded. -/
  searchEmbOk : Bool
  /-- `match_courses` rows (`none` = RPC error or null data). -/
  searchData : Option (List Course16)

/-- The part_016 `POST /chat` handler (src/unnamed/part_016 lines 256-323),
returning the updated conversations map, the response and the list of
upstream calls issued. -/
def chat016 (conv : ConvMap) (message? sid? : Option String) (freshId : String)
    (env : Env16) : ConvMap × Resp × List Call16 :=
  match optTruthy message? with
  | none => (conv, { status := 400, reply := some "لم يتم إرسال رسالة." }, [])
  | some message =>
    let session_id := (optTruthy sid?).getD freshId
    let conv1 := ensureSession conv session_id
    let history := histOf conv1 session_id
    let history1 := history ++ [⟨"user", message⟩]
    let conv2 := msSet conv1 session_id history1
    match env.intent with
    | none => (conv2, { status := 500, reply := some "حدث خطأ مؤقت." }, [.intentCompletion])
    | some intent =>
      match env.llm with
      | none => (conv2, { status := 500, reply := some "حدث خطأ مؤقت." },
                 [.intentCompletion, .chatCompletion])
      | some content =>
        let history2 := history1 ++ [⟨"assistant", content⟩]
        let conv3 := msSet conv2 session_id history2
        let reply := cleanHTML016 content
        let doSearch := intent = "learning_intent" ∨ intent = "comparison"
        let searchCalls : List Call16 :=
          if doSearch then
            if env.searchEmbOk then [.searchEmbedding, .searchRpc] else [.searchEmbedding]
          else []
        let courses :=
          if doSearch then
            searchCourses16 (if env.searchEmbOk then env.searchData else none)
          else []
        let reply :=
          if courses.length > 0 then
            (courses.foldl
              (fun r course =>
                r ++ "\n<a href=\"" ++ course.link ++
                  "\" target=\"_blank\" class=\"course-btn\">\n" ++ course.title ++ "\n</a>")
              (reply ++ "<div class=\"courses-title\">الدورات المقترحة:</div>" ++
                "<div class=\"courses-container\">")) ++ "</div>"
          else reply
        (conv3, { status := 200, reply := some reply, session_id := some session_id },
         [.intentCompletion, .chatCompletion] ++ searchCalls)

/-! ## Teachable webhook handlers -/

/-- The `object` part of a Teachable webhook body, with the optional fields
the handlers read. -/
structure WObj where
  id : Option String := none
  userName : Option String := none
  userFullName : Option String := none
  userNameTop : Option String := none
  courseName : Option String := none
  productName : Option String := none
  shippingCountry : Option String := none
  userCountry : Option String := none
  userAddrCountry : Option String := none
  deriving DecidableEq

/-- A webhook request body: `data.object` and `data.id`. -/
structure WBody where
  object : Option WObj := none
  dataId : Option String := none
  deriving DecidableEq

/-- Upstream (database) calls issued by a webhook handler. -/
inductive CallW where
  | selectActivity
  | insertActivity
  deriving DecidableEq

/-- An activity row as inserted into `recent_activity`. -/
structure ActivityRow where
  sale_id : Option String := none
  name : String
  product : String
  type : String
  country : String
  deriving DecidableEq

/-- `toUpperCase()` on the country code (ASCII, as in the data involved). -/
def jsToUpper (s : String) : String := ⟨s.data.map Char.toUpper⟩

/-- `fullName.trim().split(" ")[0]`. -/
def firstNameOf (fullName : String) : String :=
  ((splitOnChar ' ' (jsTrim fullName).data).headD "")

structure EnvW where
  /-- rows returned by the duplicate-check select. -/
  existing : List String
  /-- `insert` error (logged only). -/
  insertError : Option String
  deriving DecidableEq

/-- The part_016 `POST /teachable-webhook` handler (src/unnamed/part_016
lines 49-138): missing object, missing sale id, duplicate sale id and
non-purchase events all respond HTTP 200 without inserting; otherwise one
row is inserted (an insert error is only logged) and the response is 200.
The body text of the `res.send` is returned alongside. -/
def webhook016 (body : WBody) (env : EnvW) :
    Resp × String × List CallW × Option ActivityRow :=
  match body.object with
  | none => ({ status := 200 }, "No object ✅", [], none)
  | some object =>
    match jsOrStr object.id body.dataId with
    | none => ({ status := 200 }, "No sale id ✅", [], none)
    | some saleId =>
      if env.existing.length > 0 then
        ({ status := 200 }, "Duplicate ✅", [.selectActivity], none)
      else
        match jsOrStr object.userName (jsOrStr object.userFullName object.userNameTop),
              jsOrStr object.courseName object.productName with
        | some fullName, some productName =>
            let countryCode :=
              jsOrStr object.shippingCountry (jsOrStr object.userCountry object.userAddrCountry)
            let country := (countryCode.map jsToUpper).getD "Unknown"
            let firstName := firstNameOf fullName
            ({ status := 200 }, "OK ✅", [.selectActivity, .insertActivity],
             some { sale_id := some saleId, name := firstName, product := productName,
                    type := "purchase", country := country })
        | _, _ => ({ status := 200 }, "Ignored ✅", [.selectActivity], none)

/-- `countryCodeToName` (src/unnamed/part_009 lines 37-55). -/
def countryCodeToName (code : Option String) : String :=
  match optTruthy code with
  | none => "Unknown"
  | some c =>
      let u := jsToUpper c
      if u = "EG" then "Egypt" else if u = "SA" then "Saudi Arabia"
      else if u = "AE" then "UAE" else if u = "KW" then "Kuwait"
      else if u = "QA" then "Qatar" else if u = "OM" then "Oman"
      else if u = "BH" then "Bahrain" else if u = "US" then "United States"
      else if u = "GB" then "United Kingdom" else if u = "CA" then "Canada"
      else if u = "AU" then "Australia" else c

/-- The part_009 `POST /teachable-webhook` handler (src/unnamed/part_009
lines 73-141): filter non-purchase events first (no database call at all),
then a 60-second duplicate check, then the insert; every path responds
HTTP 200. -/
def webhook009 (body : WBody) (env : EnvW) :
    Resp × String × List CallW × Option ActivityRow :=
  let object := body.object
  let fullName? := jsOrStr (object.bind WObj.userName) (object.bind WObj.userFullName)
  let productName? := optTruthy (object.bind WObj.courseName)
  let country := countryCodeToName
    (jsOrStr (object.bind WObj.userAddrCountry) (object.bind WObj.userCountry))
  match fullName?, productName? with
  | some fullName, some productName =>
      let firstName := firstNameOf fullName
      if env.existing.length > 0 then
        ({ status := 200 }, "Duplicate ✅", [.selectActivity], none)
      else
        ({ status := 200 }, "OK ✅", [.selectActivity, .insertActivity],
         some { name := firstName, product := productName, type := "purchase",
                country := country })
  | _, _ => ({ status := 200 }, "Ignored ✅", [], none)

/-! ## Chat handler, variant 1 (src/server.js lines 61-229)

Identity-intent shortcut, premium lookup, RAG search over
`match_ai_knowledge`, one completion call, then URL stripping, course-link
append and a CTA block.  The system prompt and context are inputs to the
completion oracle and do not influence the modelled response beyond it. -/

/-- `toLowerCase()`; ASCII case mapping, exact for every comparison the
handlers make (their needles are Arabic or lowercase ASCII). -/
def jsToLower (s : String) : String := ⟨s.data.map Char.toLower⟩

/-- `content.slice(0, n)`. -/
def sliceTo (n : ℕ) (s : String) : String := ⟨s.data.take n⟩

/-- A `match_ai_knowledge` row as used by variant 1. -/
structure DocV1 where
  title : String
  content : String
  url : String
  deriving DecidableEq

inductive CallV1 where
  | premiumQuery
  | embCreate
  | rpcMatch
  | chatCompletion
  deriving DecidableEq

structure EnvV1 where
  /-- whether the `premium_users` lookup returned an active row. -/
  premiumActive : Bool
  /-- `createEmbedding` result; `none` = the call threw (HTTP 500). -/
  emb : Option ℕ
  /-- `match_ai_knowledge` rows (`none` mirrors a null `data`). -/
  matchData : Option (List DocV1)
  /-- `match_ai_knowledge` error. -/
  matchError : Option String
  /-- completion content; `none` = the call threw. -/
  llm : Option String

def identityReplyV1 : String :=
  "\nمرحبًا 👋  \nأنا **زيكو** – مساعد easyT الذكي.\n\nأساعدك في:\n• معرفة تفاصيل أي دورة  \n• ترشيح أفضل مسار مناسب لك  \n• توجيهك للاشتراك الصحيح  \n\nقولي حابب تتعلم إيه؟ 🚀"

def noResultsReplyV1 : String :=
  "\nلم أجد نتائج مطابقة لسؤالك 🤔  \nيمكنك تصفح جميع الدورات من الصفحة الرئيسية."

/-- The course-link block appended for `bestMatch` (src/server.js lines
201-207). -/
def courseLinkV1 (bestMatch : DocV1) : String :=
  "\n<br><br>\n<strong>✅ رابط الدورة:</strong><br>\n<a href=\"" ++ bestMatch.url ++
    "\" target=\"_blank\"\nstyle=\"color:#444;font-weight:bold;text-decoration:none;\">\n" ++
    bestMatch.title ++ "\n</a>"

/-- The CTA block for non-premium users (src/server.js lines 212-218). -/
def ctaV1 : String :=
  "\n<br><br>\n<div style=\"background:#222;padding:14px;border-radius:10px;color:#fff;\">\n🔓 للوصول الكامل لجميع الدورات والمحتوى المتقدم،\nاشترك الآن في باقة easyT واستفد من كل المميزات.\n</div>\n"

/-- The variant-1 `POST /chat` handler, returning the response and the
upstream calls issued. -/
def chatV1 (message? sid? uid? : Option String) (freshId : String) (env : EnvV1) :
    Resp × List CallV1 :=
  match optTruthy message? with
  | none => ({ status := 400, reply := some "لم يتم إرسال رسالة." }, [])
  | some message =>
    let session_id := (optTruthy sid?).getD freshId
    let lowerMsg := jsToLower (jsTrim message)
    if strIncludes lowerMsg "انت مين" ∨ strIncludes lowerMsg "من انت" ∨
        strIncludes lowerMsg "مين انت" then
      ({ status := 200, reply := some identityReplyV1, session_id := some session_id }, [])
    else
      let premiumCalls : List CallV1 :=
        match optTruthy uid? with
        | some _ => [.premiumQuery]
        | none => []
      let isPremium :=
        match optTruthy uid? with
        | some _ => env.premiumActive
        | none => false
      match env.emb with
      | none => ({ status := 500, reply := some "حدث خطأ مؤقت." },
                 premiumCalls ++ [.embCreate])
      | some _ =>
        let calls := premiumCalls ++ [.embCreate, .rpcMatch]
        if env.matchError.isSome then
          ({ status := 200, reply := some "حدث خطأ أثناء البحث في البيانات.",
             session_id := some session_id }, calls)
        else
          match env.matchData with
          | none =>
              ({ status := 200, reply := some noResultsReplyV1,
                 session_id := some session_id }, calls)
          | some results =>
            if results.length = 0 then
              ({ status := 200, reply := some noResultsReplyV1,
                 session_id := some session_id }, calls)
            else
              let contextText := String.intercalate "\n\n"
                ((results.take 5).map fun r =>
                  "عنوان: " ++ r.title ++ "\nمحتوى: " ++ sliceTo 800 r.content)
              let bestMatch? := results.head?
              match env.llm with
              | none => ({ status := 500, reply := some "حدث خطأ مؤقت." },
                         calls ++ [.chatCompletion])
              | some content =>
                let reply := stripUrls (jsTrim content)
                let reply :=
                  match bestMatch? with
                  | some bestMatch =>
                      if bestMatch.url ≠ "" then reply ++ courseLinkV1 bestMatch else reply
                  | none => reply
                let reply := if !isPremium then reply ++ ctaV1 else reply
                ({ status := 200, reply := some reply, session_id := some session_id },
                 calls ++ [.chatCompletion])

/-! ## src/unnamed/part_013: retrying embedding creation and its chat route -/

/-- `createEmbeddingSafe(text, retries)` (src/unnamed/part_013 lines 68-94):
`att k` is the outcome of attempt number `k` (`none` = the API call threw);
on failure with retries left, wait 1500 ms and recurse.  Returns the result
(`null` after the last failure), the number of attempts made and the list of
waits taken. -/
def createEmbeddingSafe (att : ℕ → Option ℕ) : ℕ → ℕ → Option ℕ × ℕ × List ℕ
  | retries, k =>
    match att k with
    | some e => (some e, 1, [])
    | none =>
      match retries with
      | 0 => (none, 1, [])
      | r + 1 =>
          let next := createEmbeddingSafe att r (k + 1)
          (next.1, next.2.1 + 1, 1500 :: next.2.2)

/-- A `match_documents` row as used by part_013 (`selectedDocument.id`). -/
structure Doc13 where
  id : String
  deriving DecidableEq

/-- A `courses` row as used by part_013. -/
structure Course13 where
  title : String
  description : Option String
  content : Option String
  deriving DecidableEq

inductive Call13 where
  | insertUserMsg
  | embAttempt
  | rpcMatch
  | fetchCourse
  | insertReply
  deriving DecidableEq

structure Env13 where
  /-- whether the `withTimeout`-wrapped user-message insert rejected. -/
  insertUserThrew : Bool
  /-- embedding attempt outcomes, indexed by attempt number. -/
  att : ℕ → Option ℕ
  /-- whether the `withTimeout`-wrapped RPC rejected. -/
  rpcThrew : Bool
  rpcData : Option (List Doc13)
  rpcError : Option String
  /-- whether the `withTimeout`-wrapped course fetch rejected. -/
  fetchThrew : Bool
  course : Option Course13
  courseError : Option String

/-- The part_013 `POST /chat` handler (src/unnamed/part_013 lines 100-212). -/
def chat013 (message? sid? : Option String) (freshId : String) (env : Env13) :
    Resp × List Call13 :=
  match optTruthy message? with
  | none => ({ status := 400, reply := some "لم يتم إرسال رسالة." }, [])
  | some message =>
    let session_id := (optTruthy sid?).getD freshId
    let normalizedMessage := normalizeArabicNT message
    let trace1 : List Call13 := [.insertUserMsg]
    if env.insertUserThrew then
      ({ status := 500, reply := some "⚠️ حدث خطأ في السيرفر." }, trace1)
    else
      let embRun := createEmbeddingSafe env.att 2 0
      let trace2 := trace1 ++ List.replicate embRun.2.1 .embAttempt
      match embRun.1 with
      | none =>
          ({ status := 200,
             reply := some "⚠️ حدث خطأ مؤقت أثناء معالجة الطلب، حاول مرة أخرى." }, trace2)
      | some _ =>
        let trace3 := trace2 ++ [.rpcMatch]
        if env.rpcThrew then
          ({ status := 500, reply := some "⚠️ حدث خطأ في السيرفر." }, trace3)
        else if env.rpcError.isSome then
          ({ status := 200, reply := some "حدث خطأ أثناء البحث في قاعدة البيانات." }, trace3)
        else
          match env.rpcData with
          | none => ({ status := 200, reply := some "عذرًا، لم أجد دورة مطابقة." }, trace3)
          | some results =>
            if results.length = 0 then
              ({ status := 200, reply := some "عذرًا، لم أجد دورة مطابقة." }, trace3)
            else
              let trace4 := trace3 ++ [.fetchCourse]
              if env.fetchThrew then
                ({ status := 500, reply := some "⚠️ حدث خطأ في السيرفر." }, trace4)
              else if env.courseError.isSome ∨ env.course.isNone then
                ({ status := 200, reply := some "حدث خطأ في تحميل بيانات الدورة." }, trace4)
              else
                let selectedCourse := env.course.getD ⟨"", none, none⟩
                let reply := "📚 اسم الدورة: " ++ selectedCourse.title ++
                  "\n\n📝 تفاصيل الدورة:\n" ++
                  ((jsOrStr selectedCourse.description selectedCourse.content).getD
                    "سيتم إضافة تفاصيل قريباً.") ++
                  "\n\n💰 يمكنك سؤال عن السعر\n⏳ أو مدة الدورة\n🚀 أو التسجيل الآن"
                ({ status := 200, reply := some reply, session_id := some session_id },
                 trace4 ++ [.insertReply])

/-! ## Chat handler, variant 3 (src/server.js lines 467-627)

Structured follow-up on the most recent stored course id (duration / price /
link keywords), otherwise a fresh vector search; no completion call exists
anywhere in this variant. -/

/-- A `courses` row as used by variant 3. -/
structure CourseV3 where
  title : String
  description : String
  price : String
  duration : String
  url : String
  deriving DecidableEq

/-- A `match_documents` row as used by variant 3 (`selectedDocument.id`). -/
structure DocV3 where
  id : String
  deriving DecidableEq

inductive CallV3 where
  | selectLastCourse
  | insertUserMsg
  | selectCourse
  | insertEvent
  | embCreate
  | rpcMatch
  | selectCourseByDoc
  | insertReply
  | chatCompletion
  deriving DecidableEq

structure EnvV3 where
  /-- most recent non-null `course_id` stored for the session. -/
  lastCourseId : Option String
  /-- `courses` row by `document_id` (`maybeSingle`). -/
  courseById : String → Option CourseV3
  /-- embedding result; `none` = the call threw (HTTP 500). -/
  emb : Option ℕ
  matchData : Option (List DocV3)
  matchError : Option String
  /-- `courses` row for the selected document. -/
  courseByDocId : String → Option CourseV3

/-- The follow-up keyword tests of variant 3 (src/server.js lines 523,
529, 544) on the normalized message. -/
def hasDurationKw (n : String) : Bool :=
  strIncludes n "مده" || strIncludes n "المده" || strIncludes n "المدة"

def hasPriceKw (n : String) : Bool :=
  strIncludes n "سعر" || strIncludes n "السعر"

def hasLinkKw (n : String) : Bool :=
  strIncludes n "رابط" || strIncludes n "لينك"

/-- The variant-3 `POST /chat` handler. -/
def chatV3 (message? sid? : Option String) (env : EnvV3) : Resp × List CallV3 :=
  match optTruthy message?, optTruthy sid? with
  | some message, some session_id =>
    let normalizedMessage := normalizeArabicNT message
    let trace1 : List CallV3 := [.selectLastCourse, .insertUserMsg]
    let followup : Option (Resp × List CallV3) :=
      match env.lastCourseId with
      | none => none
      | some activeDocumentId =>
        match env.courseById activeDocumentId with
        | none => none
        | some course =>
          if hasDurationKw normalizedMessage then
            some ({ status := 200, reply := some ("مدة الدورة هي " ++ course.duration ++ ".") },
              trace1 ++ [.selectCourse])
          else if hasPriceKw normalizedMessage then
            some ({ status := 200, reply := some ("سعر الدورة هو " ++ course.price ++ ".") },
              trace1 ++ [.selectCourse, .insertEvent])
          else if hasLinkKw normalizedMessage then
            some ({ status := 200, reply := some ("رابط التسجيل:\n" ++ course.url) },
              trace1 ++ [.selectCourse, .insertEvent])
          else none
    match followup with
    | some out => out
    | none =>
      let trace2 := trace1 ++
        (if env.lastCourseId.isSome then [CallV3.selectCourse] else []) ++ [.embCreate]
      match env.emb with
      | none => ({ status := 500, reply := some "حدث خطأ في السيرفر." }, trace2)
      | some _ =>
        let trace3 := trace2 ++ [.rpcMatch]
        match env.matchData with
        | none => ({ status := 200, reply := some "عذرًا، لم أجد دورة مطابقة." }, trace3)
        | some results =>
          if results.length = 0 then
            ({ status := 200, reply := some "عذرًا، لم أجد دورة مطابقة." }, trace3)
          else
            let selectedDocument := results.headD ⟨""⟩
            let trace4 := trace3 ++ [.selectCourseByDoc]
            match env.courseByDocId selectedDocument.id with
            | none => ({ status := 200, reply := some "حدث خطأ في تحميل بيانات الدورة." }, trace4)
            | some selectedCourse =>
              let reply := "اسم الدورة: " ++ selectedCourse.title ++ "\n\nالوصف: " ++
                selectedCourse.description ++ "\n\n🚀 هل ترغب في معرفة السعر أو التسجيل الآن؟"
              ({ status := 200, reply := some reply }, trace4 ++ [.insertReply])
  | _, _ => ({ status := 400, reply := some "حدث خطأ في الجلسة، أعد تحميل الصفحة." }, [])

/-! ## src/unnamed/part_000: spell correction, query expansion and the
threshold ladder -/

/-- `levenshtein` (src/unnamed/part_000 lines 30-53).  The source fills the
standard dynamic-programming matrix; this is the defining recurrence of that
matrix (`matrix[i][j]` for the prefixes), fuel-based so it evaluates in the
kernel — `a.length + b.length + 1` fuel always suffices. -/
def levenshteinFuel : ℕ → List Char → List Char → ℕ
  | 0, a, b => a.length + b.length
  | _ + 1, [], b => b.length
  | _ + 1, a, [] => a.length
  | fuel + 1, x :: xs, y :: ys =>
      if x = y then levenshteinFuel fuel xs ys
      else 1 + min (levenshteinFuel fuel xs ys)
        (min (levenshteinFuel fuel (x :: xs) ys) (levenshteinFuel fuel xs (y :: ys)))

def levenshtein (a b : String) : ℕ :=
  levenshteinFuel (a.data.length + b.data.length + 1) a.data b.data

/-- The keyword list of `smartKeywordCorrection` (src/unnamed/part_000
line 56). -/
def correctionKeywords : List String :=
  ["اليستريتور", "illustrator", "فوتوشوب", "photoshop"]

/-- `smartKeywordCorrection` (src/unnamed/part_000 lines 55-68): replace
each space-separated word by the first keyword within Levenshtein
distance 2. -/
def smartKeywordCorrection (text : String) : String :=
  joinWithChar ' '
    ((splitOnChar ' ' text.data).map fun word =>
      match correctionKeywords.find? (fun keyword => levenshtein word keyword ≤ 2) with
      | some keyword => keyword
      | none => word)

/-- A `documents` row as used by part_000. -/
structure Doc000 where
  id : String
  title : String
  url : String
  content : String
  similarity : ℚ
  deriving DecidableEq

/-- The descending threshold ladder (src/unnamed/part_000 line 188). -/
def thresholds000 : List ℚ := [0.2, 0.12, 0.08, 0.05, 0.03]

/-- `new Map(allResults.map(item => [item.id, item])).values()`: JS `Map`
insertion keeps the first position of a key and the last value set for it. -/
def dedupeById (l : List Doc000) : List Doc000 :=
  l.foldl
    (fun acc d =>
      if acc.any (fun e => e.id == d.id) then
        acc.map fun e => if e.id == d.id then d else e
      else acc ++ [d])
    []

/-- One rung of the ladder: all queries against one threshold — each query is
embedded and sent to `match_documents` (the oracle `rpc` maps threshold and
query to the returned rows), results concatenated, de-duplicated by id,
sorted by descending similarity; stop at the first non-empty rung, keeping
the top 5. -/
def ladderGo (rpc : ℚ → String → List Doc000) (queries : List String) :
    List ℚ → List Doc000
  | [] => []
  | t :: ts =>
      let allResults := queries.foldl (fun acc q => acc ++ rpc t q) []
      let uniqueResults := (dedupeById allResults).mergeSort
        fun a b => decide (b.similarity ≤ a.similarity)
      if uniqueResults.length > 0 then uniqueResults.take 5 else ladderGo rpc queries ts

def ladderSearch (rpc : ℚ → String → List Doc000) (queries : List String) : List Doc000 :=
  ladderGo rpc queries thresholds000

structure Env000 where
  /-- the five memory rows, already reversed and mapped to turns. -/
  memoryRows : List Turn
  /-- intent-check completion content; `none` = the call threw. -/
  intentOut : Option String
  /-- query-expansion completion content; `none` = the call threw. -/
  expansionOut : Option String
  /-- `match_documents` rows per threshold and query (null data = `[]`). -/
  rpc : ℚ → String → List Doc000
  /-- most recent stored `course_id` (follow-up path). -/
  lastCourseId : Option String
  /-- `documents` row by id (follow-up path). -/
  docById : String → Option Doc000
  /-- final completion content; `none` = the call threw. -/
  finalOut : Option String

/-- The memory rows visible to the intent check (only fetched when a
`session_id` is present). -/
def memoryOf (sid? : Option String) (env : Env000) : List Turn :=
  match optTruthy sid? with
  | some _ => env.memoryRows
  | none => []

/-- `intentType` (src/unnamed/part_000 lines 106-129): defaults to
`"new_question"`, replaced by the trimmed intent-check completion content
when memory rows exist (`none` = the completion threw). -/
def intentType000 (sid? : Option String) (env : Env000) : Option String :=
  if (memoryOf sid? env).length > 0 then env.intentOut.map jsTrim
  else some "new_question"

/-- The part_000 `POST /chat` handler (src/unnamed/part_000 lines 70-285).
The intent check runs only when memory rows exist; `new_question` runs the
expansion and the threshold ladder and returns the fixed not-available reply
when every rung is empty; the context strings feed the completion oracle. -/
def chat000 (message? sid? : Option String) (env : Env000) : Resp :=
  match optTruthy message? with
  | none => { status := 400, error := some "لا يوجد سؤال" }
  | some message =>
    let normalizedMessage := smartKeywordCorrection (normalizeArabicNT message)
    match intentType000 sid? env with
    | none => { status := 500, error := some "حدث خطأ في السيرفر" }
    | some intentType =>
      if intentType = "new_question" then
        match env.expansionOut with
        | none => { status := 500, error := some "حدث خطأ في السيرفر" }
        | some expansion =>
          let queries :=
            ((splitOnChar '\n' expansion.data).map jsTrim).filter fun q => q.length > 0
          let finalResults := ladderSearch env.rpc queries
          if finalResults.length = 0 then
            { status := 200, reply := some "عذرًا، المحتوى غير متوفر حاليًا." }
          else
            let contextText := String.intercalate "\n\n"
              (finalResults.enum.map fun di =>
                "#" ++ toString (di.1 + 1) ++ "\nالعنوان: " ++ di.2.title ++
                  "\nالرابط: " ++ di.2.url ++ "\nالمحتوى: " ++ di.2.content)
            match env.finalOut with
            | none => { status := 500, error := some "حدث خطأ في السيرفر" }
            | some reply => { status := 200, reply := some reply }
      else
        let contextText :=
          if intentType = "follow_up" ∧ (optTruthy sid?).isSome then
            match env.lastCourseId.bind env.docById with
            | some courseData =>
                "\nالعنوان: " ++ courseData.title ++ "\nالرابط: " ++ courseData.url ++
                  "\nالمحتوى: " ++ courseData.content ++ "\n"
            | none => ""
          else ""
        match env.finalOut with
        | none => { status := 500, error := some "حدث خطأ في السيرفر" }
        | some reply => { status := 200, reply := some reply }

/-! ## src/unnamed/part_015: the hard-coded course list lives in the system
prompt -/

/-- The fixed system prompt of src/unnamed/part_015 lines 26-66, holding the
four course blocks and their URLs. -/
def systemPrompt015 : String :=
  "\nأنت زيكو، مساعد منصة easyT التعليمية.\n\nالقواعد المهمة:\n\n1- إذا كان السؤال عن دورة أو دبلومة أو كتاب داخل easyT،\nاستخدم فقط المحتوى التالي وروابطه الرسمية:\n\n✅ قوة الذكاء الاصطناعي داخل اليستريتور\nالسعر: 9.99$\nالرابط:\nhttps://easyt.online/p/illustrator-ai\n\n✅ قوة الذكاء الاصطناعي داخل فوتوشوب\nالسعر: 9.99$\nالرابط:\nhttps://easyt.online/p/photoshop-ai\n\n✅ دبلومة المشاريع الإلكترونية والعمل الحر\nالسعر: 29.99$\nالرابط:\nhttps://easyt.online/p/e-projects-and-freeance\n\n✅ مكتبة الأمن السيبراني\nالسعر: 9.99$\nالرابط:\nhttps://easyt.online/p/cyber-lib\n\n2- لا تكتب أبدًا [رابط الدورة].\nاكتب الرابط كاملًا كنص مباشر.\n\n3- إذا لم تجد محتوى مناسب داخل القائمة أعلاه،\nقل:\n\"حالياً لا يوجد محتوى مطابق داخل المنصة.\"\n\n4- إذا كان السؤال عامًا وغير متعلق بالموقع،\nأجب باستخدام معرفتك العامة بشكل طبيعي.\n\nتحدث دائمًا باللغة العربية.\nكن مختصرًا واحترافيًا.\n"

/-- The part_015 `POST /chat` handler (src/unnamed/part_015 lines 13-83):
no keyword test and no retrieval — the message goes to the completion
endpoint under `systemPrompt015` and the model's content is returned
verbatim.  Returns the response and the `(system, user)` pair sent to the
completion call (`none` when no call was made). -/
def chat015 (message? : Option String) (llmOut : Option String) :
    Resp × Option (String × String) :=
  match optTruthy message? with
  | none => ({ status := 400, error := some "لا يوجد سؤال" }, none)
  | some message =>
    match llmOut with
    | none => ({ status := 500, error := some "حدث خطأ في السيرفر" },
               some (systemPrompt015, message))
    | some out => ({ status := 200, reply := some out }, some (systemPrompt015, message))

/-! ### Idempotence of `normalizeArabic` (claim C10) -/

theorem toLower_toNat_of_upper {c : Char} (h1 : 65 ≤ c.toNat) (h2 : c.toNat ≤ 90) :
    (Char.toLower c).toNat = c.toNat + 32 := by
  have hc := Char.ofNat_toNat c
  interval_cases h : c.toNat <;> (rw [← hc]; decide)

theorem toLower_eq_self_of_not_upper {c : Char} (h : ¬(65 ≤ c.toNat ∧ c.toNat ≤ 90)) :
    Char.toLower c = c := by
  unfold Char.toLower
  rw [if_neg]
  exact fun hcon => h ⟨hcon.1, hcon.2⟩

theorem subAlef_ne {z d : Char} (h1 : z ≠ d) (h2 : 'ا' ≠ d) : subAlef z ≠ d := by
  unfold subAlef; split <;> assumption

theorem subAlef_kill {z : Char} (d : Char) (hd : d = 'إ' ∨ d = 'أ' ∨ d = 'آ') :
    subAlef z ≠ d := by
  unfold subAlef; split
  · rcases hd with h | h | h <;> (subst h; decide)
  · rename_i h
    rcases hd with hd | hd | hd <;> (subst hd; exact fun he => h (by tauto))

theorem subTaMarbuta_ne {z d : Char} (h1 : z ≠ d) (h2 : 'ه' ≠ d) : subTaMarbuta z ≠ d := by
  unfold subTaMarbuta; split <;> assumption

theorem subTaMarbuta_kill {z : Char} : subTaMarbuta z ≠ 'ة' := by
  unfold subTaMarbuta; split
  · decide
  · assumption

theorem subAlefMaqsura_ne {z d : Char} (h1 : z ≠ d) (h2 : 'ي' ≠ d) : subAlefMaqsura z ≠ d := by
  unfold subAlefMaqsura; split <;> assumption

theorem subAlefMaqsura_kill {z : Char} : subAlefMaqsura z ≠ 'ى' := by
  unfold subAlefMaqsura; split
  · decide
  · assumption

theorem subWawHamza_ne {z d : Char} (h1 : z ≠ d) (h2 : 'و' ≠ d) : subWawHamza z ≠ d := by
  unfold subWawHamza; split <;> assumption

theorem subWawHamza_kill {z : Char} : subWawHamza z ≠ 'ؤ' := by
  unfold subWawHamza; split
  · decide
  · assumption

theorem subYaHamza_ne {z d : Char} (h1 : z ≠ d) (h2 : 'ي' ≠ d) : subYaHamza z ≠ d := by
  unfold subYaHamza; split <;> assumption

theorem subYaHamza_kill {z : Char} : subYaHamza z ≠ 'ئ' := by
  unfold subYaHamza; split
  · decide
  · assumption

theorem ne_of_toNat_le {c d : Char} (hn : 122 < d.toNat) (h : c.toNat ≤ 122) : c ≠ d := by
  intro he; subst he; omega

theorem stages_ne (a d : Char)
    (h : subAlef a ≠ d) (h2 : 'ه' ≠ d) (h3 : 'ي' ≠ d) (h4 : 'و' ≠ d) :
    subYaHamza (subWawHamza (subAlefMaqsura (subTaMarbuta (subAlef a)))) ≠ d := by
  have s2 : subTaMarbuta (subAlef a) ≠ d := subTaMarbuta_ne h h2
  have s3 : subAlefMaqsura (subTaMarbuta (subAlef a)) ≠ d := subAlefMaqsura_ne s2 h3
  have s4 : subWawHamza (subAlefMaqsura (subTaMarbuta (subAlef a))) ≠ d :=
    subWawHamza_ne s3 h4
  exact subYaHamza_ne s4 h3

theorem mem_normCore_good {l : List Char} {c : Char} (hc : c ∈ normCore l) :
    goodNormChar c := by
  unfold normCore at hc
  rcases List.mem_map.1 hc with ⟨b, hb, rfl⟩
  have hkeep : keepNormChar b = true := (List.mem_filter.1 hb).2
  have hbmem := (List.mem_filter.1 hb).1
  rcases List.mem_map.1 hbmem with ⟨b4, hb4, rfl⟩
  rcases List.mem_map.1 hb4 with ⟨b3, hb3, rfl⟩
  rcases List.mem_map.1 hb3 with ⟨b2, hb2, rfl⟩
  rcases List.mem_map.1 hb2 with ⟨b1, hb1, rfl⟩
  rcases List.mem_map.1 hb1 with ⟨a, _, rfl⟩
  have hbAlef1 : subYaHamza (subWawHamza (subAlefMaqsura (subTaMarbuta (subAlef a)))) ≠ 'إ' :=
    stages_ne a _ (subAlef_kill _ (Or.inl rfl)) (by decide) (by decide) (by decide)
  have hbAlef2 : subYaHamza (subWawHamza (subAlefMaqsura (subTaMarbuta (subAlef a)))) ≠ 'أ' :=
    stages_ne a _ (subAlef_kill _ (Or.inr (Or.inl rfl))) (by decide) (by decide) (by decide)
  have hbAlef3 : subYaHamza (subWawHamza (subAlefMaqsura (subTaMarbuta (subAlef a)))) ≠ 'آ' :=
    stages_ne a _ (subAlef_kill _ (Or.inr (Or.inr rfl))) (by decide) (by decide) (by decide)
  have hbTa : subYaHamza (subWawHamza (subAlefMaqsura (subTaMarbuta (subAlef a)))) ≠ 'ة' := by
    have s3 : subAlefMaqsura (subTaMarbuta (subAlef a)) ≠ 'ة' :=
      subAlefMaqsura_ne subTaMarbuta_kill (by decide)
    have s4 : subWawHamza (subAlefMaqsura (subTaMarbuta (subAlef a))) ≠ 'ة' :=
      subWawHamza_ne s3 (by decide)
    exact subYaHamza_ne s4 (by decide)
  have hbMaq : subYaHamza (subWawHamza (subAlefMaqsura (subTaMarbuta (subAlef a)))) ≠ 'ى' := by
    have s4 : subWawHamza (subAlefMaqsura (subTaMarbuta (subAlef a))) ≠ 'ى' :=
      subWawHamza_ne subAlefMaqsura_kill (by decide)
    exact subYaHamza_ne s4 (by decide)
  have hbWaw : subYaHamza (subWawHamza (subAlefMaqsura (subTaMarbuta (subAlef a)))) ≠ 'ؤ' :=
    subYaHamza_ne subWawHamza_kill (by decide)
  have hbYa : subYaHamza (subWawHamza (subAlefMaqsura (subTaMarbuta (subAlef a)))) ≠ 'ئ' :=
    subYaHamza_kill
  generalize hbeq : subYaHamza (subWawHamza (subAlefMaqsura (subTaMarbuta (subAlef a)))) = b
  rw [hbeq] at hkeep hbAlef1 hbAlef2 hbAlef3 hbTa hbMaq hbWaw hbYa
  by_cases hu : 65 ≤ b.toNat ∧ b.toNat ≤ 90
  · have hlow := toLower_toNat_of_upper hu.1 hu.2
    have hrange : 97 ≤ (Char.toLower b).toNat ∧ (Char.toLower b).toNat ≤ 122 := by omega
    refine ⟨?_, ?_, ?_, ?_, ?_, ?_, ?_, ?_, ?_⟩
    · simp only [keepNormChar, Bool.or_eq_true, decide_eq_true_eq]
      left; left; left; right
      constructor <;> [exact hrange.1; exact hrange.2]
    · exact ne_of_toNat_le (by decide) hrange.2
    · exact ne_of_toNat_le (by decide) hrange.2
    · exact ne_of_toNat_le (by decide) hrange.2
    · exact ne_of_toNat_le (by decide) hrange.2
    · exact ne_of_toNat_le (by decide) hrange.2
    · exact ne_of_toNat_le (by decide) hrange.2
    · exact ne_of_toNat_le (by decide) hrange.2
    · omega
  · rw [toLower_eq_self_of_not_upper hu]
    exact ⟨hkeep, hbAlef1, hbAlef2, hbAlef3, hbTa, hbMaq, hbWaw, hbYa, hu⟩

theorem map_eq_self_of_fix {m : List Char} {f : Char → Char}
    (h : ∀ c ∈ m, f c = c) : m.map f = m := by
  have := List.map_congr_left (g := id) h
  rwa [List.map_id] at this

theorem normCore_of_good {m : List Char} (h : ∀ c ∈ m, goodNormChar c) :
    normCore m = m := by
  unfold normCore
  have h1 : m.map subAlef = m := by
    apply map_eq_self_of_fix
    intro a ha
    rcases h a ha with ⟨_, hi, hA, hAA, _⟩
    unfold subAlef
    split
    · rename_i hcond
      rcases hcond with hc | hc | hc | hc
      exacts [absurd hc hi, absurd hc hA, absurd hc hAA, hc.symm]
    · rfl
  rw [h1]
  have h2 : m.map subTaMarbuta = m := by
    apply map_eq_self_of_fix
    intro a ha
    rcases h a ha with ⟨_, _, _, _, hT, _⟩
    unfold subTaMarbuta
    split
    · rename_i hc; exact absurd hc hT
    · rfl
  rw [h2]
  have h3 : m.map subAlefMaqsura = m := by
    apply map_eq_self_of_fix
    intro a ha
    rcases h a ha with ⟨_, _, _, _, _, hM, _⟩
    unfold subAlefMaqsura
    split
    · rename_i hc; exact absurd hc hM
    · rfl
  rw [h3]
  have h4 : m.map subWawHamza = m := by
    apply map_eq_self_of_fix
    intro a ha
    rcases h a ha with ⟨_, _, _, _, _, _, hW, _⟩
    unfold subWawHamza
    split
    · rename_i hc; exact absurd hc hW
    · rfl
  rw [h4]
  have h5 : m.map subYaHamza = m := by
    apply map_eq_self_of_fix
    intro a ha
    rcases h a ha with ⟨_, _, _, _, _, _, _, hY, _⟩
    unfold subYaHamza
    split
    · rename_i hc; exact absurd hc hY
    · rfl
  rw [h5]
  have h6 : m.filter keepNormChar = m := by
    apply List.filter_eq_self.mpr
    intro a ha; exact (h a ha).1
  rw [h6]
  apply map_eq_self_of_fix
  intro a ha
  exact toLower_eq_self_of_not_upper (h a ha).2.2.2.2.2.2.2.2

theorem mem_trimChars {l : List Char} {c : Char} (h : c ∈ trimChars l) : c ∈ l := by
  unfold trimChars at h
  have hsub1 : List.rdropWhile isJsWhitespace (List.dropWhile isJsWhitespace l) <+:
      List.dropWhile isJsWhitespace l := List.rdropWhile_prefix _ _
  have hsub2 := List.dropWhile_sublist (l := l) isJsWhitespace
  exact hsub2.subset (hsub1.sublist.subset h)

theorem trimChars_idem (l : List Char) : trimChars (trimChars l) = trimChars l := by
  unfold trimChars
  set m := List.dropWhile isJsWhitespace l with hm
  have hmfix : List.dropWhile isJsWhitespace m = m := by
    rw [hm]; exact List.dropWhile_idempotent _ _
  have hdrop : List.dropWhile isJsWhitespace (List.rdropWhile isJsWhitespace m) =
      List.rdropWhile isJsWhitespace m := by
    apply List.dropWhile_eq_self_iff.mpr
    intro hl
    have hpre := List.rdropWhile_prefix isJsWhitespace m
    have hml : 0 < m.length := lt_of_lt_of_le hl hpre.length_le
    have hget : (List.rdropWhile isJsWhitespace m).get ⟨0, hl⟩ = m.get ⟨0, hml⟩ := by
      simp only [List.get_eq_getElem]
      exact hpre.getElem hl
    rw [hget]
    exact List.dropWhile_eq_self_iff.mp hmfix hml
  rw [hdrop, List.rdropWhile_idempotent]

/-- Claim C10: `normalizeArabic` is idempotent — for every input string `s`,
`normalizeArabic (normalizeArabic s) = normalizeArabic s`, both for the
variant with a final `trim()` (src/server.js lines 32-42) and for the variant
without it (src/unnamed/part_013 lines 53-62): every character of the output
(Arabic letters with the substituted forms, lowercase Latin letters, digits,
whitespace) is left fixed by each replacement, the filter, lowercasing and
trimming. -/
theorem normalizeArabic_idempotent (s : String) :
    normalizeArabic (normalizeArabic s) = normalizeArabic s ∧
    normalizeArabicNT (normalizeArabicNT s) = normalizeArabicNT s := by
  constructor
  · show (⟨trimChars (normCore (trimChars (normCore s.data)))⟩ : String) = _
    have hgood : ∀ c ∈ trimChars (normCore s.data), goodNormChar c := fun c hc =>
      mem_normCore_good (mem_trimChars hc)
    rw [normCore_of_good hgood, trimChars_idem]
    rfl
  · show (⟨normCore (normCore s.data)⟩ : String) = _
    rw [normCore_of_good fun c hc => mem_normCore_good hc]
    rfl

/-! ## Lemmas about the conversation map -/

theorem msGet_msSet_self (m : ConvMap) (k : String) (v : List Turn) :
    msGet (msSet m k v) k = some v := by
  induction m with
  | nil => simp [msSet, msGet]
  | cons p rest ih =>
      obtain ⟨k', v'⟩ := p
      by_cases h : k' = k
      · simp [msSet, msGet, h]
      · simp [msSet, msGet, h, ih]

theorem msGet_msSet_ne (m : ConvMap) (k q : String) (v : List Turn) (h : k ≠ q) :
    msGet (msSet m k v) q = msGet m q := by
  induction m with
  | nil => simp [msSet, msGet, h]
  | cons p rest ih =>
      obtain ⟨k', v'⟩ := p
      by_cases hk : k' = k
      · subst hk
        simp [msSet, msGet, h]
      · by_cases hq : k' = q <;> simp [msSet, msGet, hk, hq, ih, Ne.symm h]

theorem histOf_msSet_self (m : ConvMap) (k : String) (v : List Turn) :
    histOf (msSet m k v) k = v := by
  simp [histOf, msGet_msSet_self]

theorem histOf_msSet_ne (m : ConvMap) (k q : String) (v : List Turn) (h : k ≠ q) :
    histOf (msSet m k v) q = histOf m q := by
  simp [histOf, msGet_msSet_ne m k q v h]

theorem histOf_ensureSession (conv : ConvMap) (sid q : String) :
    histOf (ensureSession conv sid) q = histOf conv q := by
  unfold ensureSession
  by_cases hp : (msGet conv sid).isSome
  · simp [hp]
  · rw [if_neg hp]
    by_cases hq : sid = q
    · subst hq
      rw [histOf_msSet_self]
      unfold histOf
      cases h : msGet conv sid with
      | some v => rw [h] at hp; simp at hp
      | none => simp
    · exact histOf_msSet_ne conv sid q [] hq

/-! ## Claim theorems -/

/-- Claim C6: within a process lifetime every `/chat` request of the
conversation-map variants only appends turns: for each session, the history
before the request is a prefix of the history after it, in every branch
(missing message, completion failure, retrieval failure, success) of the
variant-2 handler (src/server.js lines 320-420) and the part_016 handler
(src/unnamed/part_016 lines 256-323); no turn is mutated or removed, so the
length is monotonically increasing. -/
theorem history_append_only (conv : ConvMap) (message? sid? : Option String)
    (freshId : String) (envV2 : EnvV2) (env16 : Env16) (q : String) :
    histOf conv q <+: histOf (chatV2 conv message? sid? freshId envV2).1 q ∧
    histOf conv q <+: histOf (chat016 conv message? sid? freshId env16).1 q := by
  constructor
  · unfold chatV2
    cases hm : optTruthy message? with
    | none => exact List.prefix_refl _
    | some message =>
      simp only
      set sid := (optTruthy sid?).getD freshId with hsid
      by_cases hq : sid = q
      · subst hq
        cases envV2.llm with
        | none =>
            simp only [histOf_msSet_self, histOf_ensureSession]
            exact (histOf conv sid).prefix_append _
        | some content =>
            cases envV2.relatedOf (detectTopic message) <;>
              · simp only [histOf_msSet_self, histOf_ensureSession, List.append_assoc]
                exact (histOf conv sid).prefix_append _
      · cases envV2.llm with
        | none =>
            rw [histOf_msSet_ne _ _ _ _ hq, histOf_ensureSession]
        | some content =>
            cases envV2.relatedOf (detectTopic message) <;>
              · simp only [histOf_msSet_ne _ _ _ _ hq, histOf_ensureSession]
                exact List.prefix_refl _
  · unfold chat016
    cases hm : optTruthy message? with
    | none => exact List.prefix_refl _
    | some message =>
      simp only
      set sid := (optTruthy sid?).getD freshId with hsid
      by_cases hq : sid = q
      · subst hq
        cases env16.intent with
        | none =>
            simp only [histOf_msSet_self, histOf_ensureSession]
            exact (histOf conv sid).prefix_append _
        | some intent =>
          cases env16.llm with
          | none =>
              simp only [histOf_msSet_self, histOf_ensureSession]
              exact (histOf conv sid).prefix_append _
          | some content =>
              simp only [histOf_msSet_self, histOf_ensureSession, List.append_assoc]
              exact (histOf conv sid).prefix_append _
      · cases env16.intent with
        | none => rw [histOf_msSet_ne _ _ _ _ hq, histOf_ensureSession]
        | some intent =>
          cases env16.llm with
          | none => rw [histOf_msSet_ne _ _ _ _ hq, histOf_ensureSession]
          | some content =>
              simp only [histOf_msSet_ne _ _ _ _ hq, histOf_ensureSession]
              exact List.prefix_refl _

theorem optTruthy_some {s : String} (h : s ≠ "") : optTruthy (some s) = some s := by
  simp [optTruthy, h]

/-- Claim C1: a `POST /chat` body without a `message` field gets HTTP 400
with the fixed localized reply and no upstream call at all — no embedding,
no completion, no database query — in all three cited handlers (src/server.js
variant 1, src/unnamed/part_013, src/unnamed/part_016, whose guard precedes
every upstream call); the part_016 conversations map is left untouched. -/
theorem missing_message_returns_400_without_upstream_calls
    (sid? uid? : Option String) (freshId : String) (conv : ConvMap)
    (envV1 : EnvV1) (env13 : Env13) (env16 : Env16) :
    chatV1 none sid? uid? freshId envV1 =
      ({ status := 400, reply := some "لم يتم إرسال رسالة." }, []) ∧
    chat013 none sid? freshId env13 =
      ({ status := 400, reply := some "لم يتم إرسال رسالة." }, []) ∧
    chat016 conv none sid? freshId env16 =
      (conv, { status := 400, reply := some "لم يتم إرسال رسالة." }, []) :=
  ⟨rfl, rfl, rfl⟩

/-- Claim C5: a request carrying a `session_id` not in the conversations map
makes the handler create a fresh empty history before appending the incoming
user turn, so the first turn ever stored for the session is that request's
user message — in the variant-2 handler and the part_016 handler (the
assistant turn follows only when the completion calls succeed). -/
theorem novel_session_creates_empty_history_first
    (conv : ConvMap) (msg sid freshId : String) (envV2 : EnvV2) (env16 : Env16)
    (hnew : msGet conv sid = none) (hmsg : msg ≠ "") (hsid : sid ≠ "") :
    histOf (chatV2 conv (some msg) (some sid) freshId envV2).1 sid =
      Turn.mk "user" msg :: (match envV2.llm with
        | none => []
        | some content => [Turn.mk "assistant" content]) ∧
    histOf (chat016 conv (some msg) (some sid) freshId env16).1 sid =
      Turn.mk "user" msg :: (match env16.intent, env16.llm with
        | some _, some content => [Turn.mk "assistant" content]
        | _, _ => []) := by
  have hens : ensureSession conv sid = msSet conv sid [] := by
    simp [ensureSession, hnew]
  have hhist : histOf (msSet conv sid []) sid = [] := histOf_msSet_self _ _ _
  constructor
  · unfold chatV2
    rw [optTruthy_some hmsg, optTruthy_some hsid]
    simp only [Option.getD_some, hens, hhist]
    cases envV2.llm with
    | none => simp [histOf_msSet_self]
    | some content =>
        cases envV2.relatedOf (detectTopic msg) <;> simp [histOf_msSet_self]
  · unfold chat016
    rw [optTruthy_some hmsg, optTruthy_some hsid]
    simp only [Option.getD_some, hens, hhist]
    cases env16.intent with
    | none => simp [histOf_msSet_self]
    | some intent =>
        cases env16.llm with
        | none => simp [histOf_msSet_self]
        | some content => simp [histOf_msSet_self]

theorem novel_session_creates_empty_history_first_witness :
    msGet [] "s1" = none ∧ ("مرحبا" : String) ≠ "" ∧ ("s1" : String) ≠ "" ∧
    histOf (chatV2 [] (some "مرحبا") (some "s1") "fresh"
      { llm := some "أهلاً", relatedOf := fun _ => some [] }).1 "s1" =
      [Turn.mk "user" "مرحبا", Turn.mk "assistant" "أهلاً"] ∧
    histOf (chat016 [] (some "مرحبا") (some "s1") "fresh"
      { intent := some "other", llm := some "أهلاً", searchEmbOk := true,
        searchData := some [] }).1 "s1" =
      [Turn.mk "user" "مرحبا", Turn.mk "assistant" "أهلاً"] := by
  have h := novel_session_creates_empty_history_first [] "مرحبا" "s1" "fresh"
    { llm := some "أهلاً", relatedOf := fun _ => some [] }
    { intent := some "other", llm := some "أهلاً", searchEmbOk := true,
      searchData := some [] }
    rfl (by decide) (by decide)
  exact ⟨rfl, by decide, by decide, h.1, h.2⟩

/-- Claim C2: in the variant-3 handler, a normalized message containing a
follow-up keyword (duration, price or link) on a session whose most recent
stored course id resolves to a course row is answered from the stored course
fields in a templated sentence — `سعر الدورة هو ${course.price}.` for the
price keyword — and the request issues no embedding call and no completion
call (variant 3 has no completion call at all). -/
theorem followup_keyword_uses_stored_course
    (message session_id : String) (env : EnvV3) (id : String) (c : CourseV3)
    (hmsg : message ≠ "") (hsid : session_id ≠ "")
    (hlast : env.lastCourseId = some id) (hcourse : env.courseById id = some c)
    (hkw : hasDurationKw (normalizeArabicNT message) = true ∨
           hasPriceKw (normalizeArabicNT message) = true ∨
           hasLinkKw (normalizeArabicNT message) = true) :
    (chatV3 (some message) (some session_id) env).1 =
      { status := 200, reply := some (
          if hasDurationKw (normalizeArabicNT message) then
            "مدة الدورة هي " ++ c.duration ++ "."
          else if hasPriceKw (normalizeArabicNT message) then
            "سعر الدورة هو " ++ c.price ++ "."
          else "رابط التسجيل:\n" ++ c.url) } ∧
    (chatV3 (some message) (some session_id) env).2.count .embCreate = 0 ∧
    (chatV3 (some message) (some session_id) env).2.count .chatCompletion = 0 := by
  unfold chatV3
  rw [optTruthy_some hmsg, optTruthy_some hsid]
  simp only [hlast, hcourse]
  by_cases hd : hasDurationKw (normalizeArabicNT message) = true
  · simp [hd, List.count_cons]
  · by_cases hp : hasPriceKw (normalizeArabicNT message) = true
    · simp [hd, hp, List.count_cons]
    · have hl : hasLinkKw (normalizeArabicNT message) = true := by tauto
      simp [hd, hp, hl, List.count_cons]

theorem followup_keyword_uses_stored_course_witness :
    (chatV3 (some "السعر") (some "X")
      { lastCourseId := some "doc1",
        courseById := fun i => if i = "doc1" then
          some ⟨"دورة الذكاء", "وصف", "9.99$", "4 ساعات", "https://easyt.online/p/x"⟩
          else none,
        emb := some 0, matchData := some [], matchError := none,
        courseByDocId := fun _ => none }).1 =
      { status := 200, reply := some "سعر الدورة هو 9.99$." } := by
  have h := followup_keyword_uses_stored_course "السعر" "X"
    { lastCourseId := some "doc1",
      courseById := fun i => if i = "doc1" then
        some ⟨"دورة الذكاء", "وصف", "9.99$", "4 ساعات", "https://easyt.online/p/x"⟩
        else none,
      emb := some 0, matchData := some [], matchError := none,
      courseByDocId := fun _ => none }
    "doc1" ⟨"دورة الذكاء", "وصف", "9.99$", "4 ساعات", "https://easyt.online/p/x"⟩
    (by decide) (by decide) rfl (by decide) (Or.inr (Or.inl (by decide)))
  rw [h.1]
  decide

theorem foldl_append_nil {α β : Type} (f : β → List α) (l : List β)
    (hf : ∀ b ∈ l, f b = []) : l.foldl (fun acc b => acc ++ f b) [] = [] := by
  induction l with
  | nil => rfl
  | cons b bs ih =>
      simp only [List.foldl_cons, hf b (by simp), List.append_nil]
      exact ih fun x hx => hf x (by simp [hx])

theorem ladderGo_empty (rpc : ℚ → String → List Doc000) (queries : List String)
    (ts : List ℚ) (h : ∀ t ∈ ts, ∀ q, rpc t q = []) :
    ladderGo rpc queries ts = [] := by
  induction ts with
  | nil => rfl
  | cons t ts ih =>
      unfold ladderGo
      have hall : queries.foldl (fun acc q => acc ++ rpc t q) [] = [] :=
        foldl_append_nil _ _ fun q _ => h t (by simp) q
      rw [hall]
      simp only [dedupeById, List.foldl_nil, List.mergeSort_nil, List.length_nil,
        gt_iff_lt, lt_irrefl, if_false]
      exact ih fun t' ht' q => h t' (by simp [ht']) q

/-- Claim C3: when the similarity search yields zero rows at every configured
threshold, the handler returns the fixed "not available" reply and appends no
course link or button — for the part_000 threshold ladder (0.2, 0.12, 0.08,
0.05, 0.03: every rung empty falls through to the fixed reply before any
completion or link code) and for the variant-1 empty-results branch (the
response is exactly the fixed string, never reaching the link/CTA appends). -/
theorem empty_search_fixed_not_available
    (message : String) (sid? : Option String) (env : Env000) (expansion : String)
    (sidV uidV : Option String) (freshId : String) (envV1 : EnvV1)
    (hmsg : message ≠ "")
    (hintent : intentType000 sid? env = some "new_question")
    (hexp : env.expansionOut = some expansion)
    (hempty : ∀ t ∈ thresholds000, ∀ q, env.rpc t q = [])
    (hident : ¬(strIncludes (jsToLower (jsTrim message)) "انت مين" = true ∨
                strIncludes (jsToLower (jsTrim message)) "من انت" = true ∨
                strIncludes (jsToLower (jsTrim message)) "مين انت" = true))
    (hembV : envV1.emb.isSome = true)
    (herrV : envV1.matchError = none)
    (hdataV : envV1.matchData = none ∨ envV1.matchData = some []) :
    chat000 (some message) sid? env =
      { status := 200, reply := some "عذرًا، المحتوى غير متوفر حاليًا." } ∧
    (chatV1 (some message) sidV uidV freshId envV1).1 =
      { status := 200, reply := some noResultsReplyV1,
        session_id := some ((optTruthy sidV).getD freshId) } := by
  constructor
  · unfold chat000
    rw [optTruthy_some hmsg, hintent]
    simp only [hexp, if_pos rfl]
    rw [ladderSearch, ladderGo_empty env.rpc _ thresholds000 hempty]
    rfl
  · unfold chatV1
    rw [optTruthy_some hmsg]
    simp only [if_neg hident]
    obtain ⟨e, he⟩ := Option.isSome_iff_exists.mp hembV
    rw [he]
    simp only [herrV, Option.isSome_none, Bool.false_eq_true, if_false]
    rcases hdataV with hD | hD <;> simp [hD]

theorem empty_search_fixed_not_available_witness :
    chat000 (some "هاي") none
      { memoryRows := [], intentOut := none, expansionOut := some "سؤال",
        rpc := fun _ _ => [], lastCourseId := none, docById := fun _ => none,
        finalOut := none } =
      { status := 200, reply := some "عذرًا، المحتوى غير متوفر حاليًا." } ∧
    (chatV1 (some "هاي") none none "fresh"
      { premiumActive := false, emb := some 0, matchData := some [],
        matchError := none, llm := none }).1 =
      { status := 200, reply := some noResultsReplyV1, session_id := some "fresh" } := by
  have h := empty_search_fixed_not_available "هاي" none
    { memoryRows := [], intentOut := none, expansionOut := some "سؤال",
      rpc := fun _ _ => [], lastCourseId := none, docById := fun _ => none,
      finalOut := none }
    "سؤال" none none "fresh"
    { premiumActive := false, emb := some 0, matchData := some [],
      matchError := none, llm := none }
    (by decide) rfl rfl (fun t _ q => rfl) (by decide) rfl rfl (Or.inr rfl)
  exact ⟨h.1, h.2⟩

set_option maxHeartbeats 8000000 in
/-- Claim C7: the embedding-creation retry is bounded with fixed backoff:
`createEmbeddingSafe(text, retries = 2)` makes at most 3 attempts, waits a
fixed 1500 ms before each retry, and when every attempt fails it terminates
with `null` — after which the part_013 handler answers with the
temporary-error reply instead of crashing; and no other pipeline step of that
handler is ever invoked more than once per request (only the embedding
attempts may repeat, at most three times). -/
theorem embedding_retry_bounded (att : ℕ → Option ℕ) (env : Env13)
    (message : String) (sid? : Option String) (freshId : String)
    (hmsg : message ≠ "") :
    (createEmbeddingSafe att 2 0).2.1 ≤ 3 ∧
    (createEmbeddingSafe att 2 0).2.2 =
      List.replicate ((createEmbeddingSafe att 2 0).2.1 - 1) 1500 ∧
    ((∀ i, i ≤ 2 → att i = none) →
      createEmbeddingSafe att 2 0 = (none, 3, [1500, 1500])) ∧
    ((∀ i, i ≤ 2 → env.att i = none) → env.insertUserThrew = false →
      (chat013 (some message) sid? freshId env).1 =
        { status := 200,
          reply := some "⚠️ حدث خطأ مؤقت أثناء معالجة الطلب، حاول مرة أخرى." }) ∧
    ((chat013 (some message) sid? freshId env).2.count .insertUserMsg ≤ 1 ∧
     (chat013 (some message) sid? freshId env).2.count .embAttempt ≤ 3 ∧
     (chat013 (some message) sid? freshId env).2.count .rpcMatch ≤ 1 ∧
     (chat013 (some message) sid? freshId env).2.count .fetchCourse ≤ 1 ∧
     (chat013 (some message) sid? freshId env).2.count .insertReply ≤ 1) := by
  have hshape : ∀ a : ℕ → Option ℕ, (createEmbeddingSafe a 2 0).2.1 ≤ 3 ∧
      (createEmbeddingSafe a 2 0).2.2 =
        List.replicate ((createEmbeddingSafe a 2 0).2.1 - 1) 1500 := by
    intro a
    cases h0 : a 0 <;> cases h1 : a 1 <;> cases h2 : a 2 <;>
      simp [createEmbeddingSafe, h0, h1, h2, List.replicate]
  have hfail : ∀ a : ℕ → Option ℕ, (∀ i, i ≤ 2 → a i = none) →
      createEmbeddingSafe a 2 0 = (none, 3, [1500, 1500]) := by
    intro a ha
    have h0 := ha 0 (by omega)
    have h1 := ha 1 (by omega)
    have h2 := ha 2 (by omega)
    simp [createEmbeddingSafe, h0, h1, h2, List.replicate]
  refine ⟨(hshape att).1, (hshape att).2, hfail att, ?_, ?_⟩
  · intro ha hins
    unfold chat013
    rw [optTruthy_some hmsg]
    simp only [hins, Bool.false_eq_true, if_false]
    rw [hfail env.att ha]
  · have hn3 := (hshape env.att).1
    unfold chat013
    simp only [optTruthy_some hmsg]
    generalize hE : createEmbeddingSafe env.att 2 0 = E at hn3 ⊢
    obtain ⟨res, n, ws⟩ := E
    simp only at hn3
    cases hins : env.insertUserThrew <;>
      cases res <;>
        cases hrpcT : env.rpcThrew <;>
          cases hrpcE : env.rpcError <;>
            rcases hdata : env.rpcData with _ | (_ | ⟨d, results⟩) <;>
              cases hfT : env.fetchThrew <;>
                cases hcE : env.courseError <;>
                  rcases hc : env.course with _ | course <;>
                    simp [List.count_append, List.count_replicate, List.count_cons,
                      List.count_nil, hn3]

theorem embedding_retry_bounded_witness :
    createEmbeddingSafe (fun _ => none) 2 0 = (none, 3, [1500, 1500]) ∧
    (chat013 (some "سؤال") none "fresh"
      { insertUserThrew := false, att := fun _ => none, rpcThrew := false,
        rpcData := none, rpcError := none, fetchThrew := false,
        course := none, courseError := none }).1 =
      { status := 200,
        reply := some "⚠️ حدث خطأ مؤقت أثناء معالجة الطلب، حاول مرة أخرى." } := by
  have h := embedding_retry_bounded (fun _ => none)
    { insertUserThrew := false, att := fun _ => none, rpcThrew := false,
      rpcData := none, rpcError := none, fetchThrew := false,
      course := none, courseError := none } "سؤال" none "fresh" (by decide)
  exact ⟨h.2.2.1 (fun i _ => rfl), h.2.2.2.1 (fun i _ => rfl) rfl⟩

/-- Claim C8: every `POST /teachable-webhook` request whose handler body does
not throw is answered with HTTP 200 — the missing-object, missing-sale-id,
duplicate, non-purchase (filtered), database-insert-error and
successful-insert cases alike (the modelled insert error is only logged) —
and event filtering happens before any row is inserted into the activity
table: a filtered event never reaches the insert, in part_016 and in
part_009 (where the filter even precedes the duplicate-check select). -/
theorem webhook_always_200_filter_before_insert (body : WBody) (env : EnvW) :
    (webhook016 body env).1.status = 200 ∧
    (webhook009 body env).1.status = 200 ∧
    (body.object = none → (webhook016 body env).2.2 = ([], none)) ∧
    (∀ object, body.object = some object → jsOrStr object.id body.dataId = none →
      (webhook016 body env).2.2 = ([], none)) ∧
    (∀ object, body.object = some object →
      (jsOrStr object.userName (jsOrStr object.userFullName object.userNameTop) = none ∨
        jsOrStr object.courseName object.productName = none) →
      (webhook016 body env).2.2.2 = none ∧
      CallW.insertActivity ∉ (webhook016 body env).2.2.1) ∧
    (env.existing ≠ [] →
      CallW.insertActivity ∉ (webhook016 body env).2.2.1) ∧
    ((jsOrStr (body.object.bind WObj.userName) (body.object.bind WObj.userFullName) = none ∨
      optTruthy (body.object.bind WObj.courseName) = none) →
      (webhook009 body env).2.2 = ([], none)) := by
  rcases body with ⟨object?, dataId⟩
  rcases object? with _ | object
  · refine ⟨rfl, ?_, fun _ => rfl, ?_, ?_, ?_, ?_⟩
    · unfold webhook009
      simp only [Option.bind_none]
      rcases h : jsOrStr none none with _ | v
      · rfl
      · simp [jsOrStr, optTruthy] at h
    · intro o ho; cases ho
    · intro o ho; cases ho
    · intro _
      unfold webhook016
      simp
    · intro _
      unfold webhook009
      simp only [Option.bind_none]
      rcases h : jsOrStr none none with _ | v
      · rfl
      · simp [jsOrStr, optTruthy] at h
  · refine ⟨?_, ?_, ?_, ?_, ?_, ?_, ?_⟩
    · unfold webhook016
      simp only
      rcases hsale : jsOrStr object.id dataId with _ | saleId
      · rfl
      · by_cases hdup : env.existing.length > 0
        · simp [hdup]
        · simp only [hdup, if_false]
          rcases hname : jsOrStr object.userName (jsOrStr object.userFullName object.userNameTop)
            with _ | fullName <;>
            rcases hprod : jsOrStr object.courseName object.productName with _ | productName <;>
              simp [hname, hprod]
    · unfold webhook009
      simp only [Option.bind_some]
      rcases hname : jsOrStr object.userName object.userFullName with _ | fullName <;>
        rcases hprod : optTruthy object.courseName with _ | productName <;>
          by_cases hdup : env.existing.length > 0 <;> simp [hname, hprod, hdup]
    · intro h; cases h
    · intro o ho hsale
      cases ho
      unfold webhook016
      simp [hsale]
    · intro o ho hfilter
      cases ho
      unfold webhook016
      simp only
      rcases hsale : jsOrStr object.id dataId with _ | saleId
      · simp [hsale]
      · by_cases hdup : env.existing.length > 0
        · simp [hsale, hdup]
        · simp only [hsale, hdup, if_false]
          rcases hfilter with hf | hf <;>
            rcases hname : jsOrStr object.userName (jsOrStr object.userFullName object.userNameTop)
              with _ | fullName <;>
              rcases hprod : jsOrStr object.courseName object.productName with _ | productName <;>
                simp_all
    · intro hdup
      unfold webhook016
      simp only
      rcases hsale : jsOrStr object.id dataId with _ | saleId
      · simp [hsale]
      · have hlen : env.existing.length > 0 := by
          rcases hex : env.existing with _ | ⟨a, l⟩
          · exact absurd hex hdup
          · simp
        simp [hsale, hlen]
    · intro hfilter
      unfold webhook009
      simp only [Option.bind_some] at hfilter ⊢
      rcases hfilter with hf | hf <;>
        rcases hname : jsOrStr object.userName object.userFullName with _ | fullName <;>
          rcases hprod : optTruthy object.courseName with _ | productName <;>
            simp_all

theorem webhook_always_200_filter_before_insert_witness :
    (webhook016 ⟨none, none⟩ ⟨[], none⟩).1.status = 200 ∧
    (webhook016 ⟨none, none⟩ ⟨[], none⟩).2.2 = ([], none) ∧
    (webhook009 ⟨none, none⟩ ⟨[], none⟩).1.status = 200 ∧
    (webhook009 ⟨none, none⟩ ⟨[], none⟩).2.2 = ([], none) := by
  have h := webhook_always_200_filter_before_insert ⟨none, none⟩ ⟨[], none⟩
  exact ⟨h.1, h.2.2.1 rfl, h.2.1, h.2.2.2.2.2.2 (Or.inl rfl)⟩

set_option maxHeartbeats 1000000 in
set_option maxRecDepth 20000 in
/-- Claim C9 counterexample: in the part_015 variant the keyword is not
hard-coded in the handler — the reply is whatever the completion endpoint
returns.  For the input `{message: "فوتوشوب"}` with no session id, a
completion outcome of `"مرحبا"` makes the response reply exactly `"مرحبا"`,
which does not contain `https://easyt.online/p/photoshop-ai`, so the claim
that the reply contains the fixed Photoshop promotional block is false of the
code. -/
theorem photoshop_reply_counterexample :
    (chat015 (some "فوتوشوب") (some "مرحبا")).1.reply = some "مرحبا" ∧
    strIncludes "مرحبا" "https://easyt.online/p/photoshop-ai" = false :=
  ⟨rfl, by decide⟩

set_option maxHeartbeats 2000000 in
set_option maxRecDepth 20000 in
/-- Claim C9 (amended): for the input `{message: "فوتوشوب"}` with no session
id, the part_015 handler issues exactly one completion call whose fixed
system prompt contains the Photoshop promotional block and the URL
`https://easyt.online/p/photoshop-ai`, and returns the model's content
verbatim with HTTP 200; the promotional block is guaranteed in the prompt,
not in the reply. -/
theorem photoshop_prompt_contains_block (llmOut : String) :
    chat015 (some "فوتوشوب") (some llmOut) =
      ({ status := 200, reply := some llmOut }, some (systemPrompt015, "فوتوشوب")) ∧
    strIncludes systemPrompt015 "https://easyt.online/p/photoshop-ai" = true ∧
    strIncludes systemPrompt015 "قوة الذكاء الاصطناعي داخل فوتوشوب" = true :=
  ⟨rfl, by decide, by decide⟩

set_option maxHeartbeats 8000000 in
set_option maxRecDepth 20000 in
/-- Claim C4 counterexample: the formatting stage is not idempotent.
Re-applying the variant-2 formatter (cleanup, button append, style wrap) to
its own output on reply `"hi"` with no retrieved courses yields a different
string (a second `<style>`/`chat-wrapper` wrap), and the part_016
`cleanHTML` applied twice to `"<h1\n>"` differs from applying it once (the
newline-to-`<br>` step manufactures a heading match for the second pass). -/
theorem formatter_not_idempotent_counterexample :
    formatV2 [] (formatV2 [] "hi") ≠ formatV2 [] "hi" ∧
    cleanHTML016 (cleanHTML016 "<h1\n>") ≠ cleanHTML016 "<h1\n>" := by
  constructor <;> decide

set_option maxHeartbeats 8000000 in
set_option maxRecDepth 20000 in
/-- Claim C4 (amended): the formatting stage is not idempotent — each
application wraps one more style block.  For reply `"hi"` with no retrieved
courses, one application of the variant-2 formatter emits exactly one
`<style>` block and one `<div class="chat-wrapper">`, and re-applying the
formatter to that output emits two of each: re-formatting double-wraps
instead of leaving the reply unchanged. -/
theorem formatter_single_wrap_per_application :
    countOccur "<style>".data (formatV2 [] "hi").data = 1 ∧
    countOccur "<div class=\"chat-wrapper\">".data (formatV2 [] "hi").data = 1 ∧
    countOccur "<style>".data (formatV2 [] (formatV2 [] "hi")).data = 2 ∧
    countOccur "<div class=\"chat-wrapper\">".data (formatV2 [] (formatV2 [] "hi")).data = 2 :=
  ⟨by decide, by decide, by decide, by decide⟩

end EasytChat
